import Mathlib

/-!
# Verification of the sell-api gateway (`main.py`)

Shallow embedding of the single-file FastAPI gateway: JSON values, the
Python-style dictionary/truthiness operations the handler relies on, the
three authenticated endpoints (`POST /localAPI`, `GET /history`,
`GET /usage`), the reply/usage extraction from upstream responses, and an
asyncio-style interleaving model for the concurrency property.

Machine conventions:
* Python exceptions that escape a handler are caught by the registered
  global exception handler and turned into a 500 response; we model a
  raising computation with `PyRes` (`ok` / `exn`).
* JSON numbers are modelled as integers (`Int`); the claims under study
  never involve fractional provider payloads.
* `httpx` exception taxonomy (relevant part): `ReadTimeout` and
  `ConnectTimeout` are both `TimeoutException <: TransportError <:
  HTTPError`, and `HTTPStatusError <: HTTPError`.  The source catches
  `httpx.ReadTimeout` first (504) and then `httpx.HTTPError` (502), so
  only read timeouts get 504.
-/

namespace SellApi

/-- A JSON value as produced by `json.loads` / `response.json()`. -/
inductive Json where
  | null
  | bool (b : Bool)
  | num (n : Int)
  | str (s : String)
  | arr (elems : List Json)
  | obj (fields : List (String × Json))

/-- Result of a Python expression: a value, or a raised exception
(`exn`).  An exception escaping the handler body is converted to an
HTTP 500 by the app-wide exception handler in `main.py`. -/
inductive PyRes (α : Type) where
  | ok (a : α)
  | exn
deriving DecidableEq, Repr

/-- `r.isOk` is true when the computation did not raise. -/
def PyRes.isOk {α : Type} : PyRes α → Bool
  | .ok _ => true
  | .exn => false

/-- First binding of a key in a JSON object's field list (Python dict
lookup; keys are unique in dicts parsed from JSON). -/
def jsonFind : List (String × Json) → String → Option Json
  | [], _ => none
  | (k', v) :: rest, k => if k' = k then some v else jsonFind rest k

/-- Python truthiness of a JSON value (`bool(x)`). -/
def Json.truthy : Json → Bool
  | .null => false
  | .bool b => b
  | .num n => n != 0
  | .str s => s != ""
  | .arr l => !l.isEmpty
  | .obj l => !l.isEmpty

/-- Python `x.get(k, d)`: dictionary lookup with default; raises
(`AttributeError`) when `x` is not a dict. -/
def pyGet (j : Json) (k : String) (d : Json) : PyRes Json :=
  match j with
  | .obj fields => .ok ((jsonFind fields k).getD d)
  | _ => .exn

/-- Python `x[0]` as used on the `choices` value: yields the head of a
nonempty list and raises otherwise (`IndexError` on an empty list,
`TypeError`/`KeyError` on non-sequences; a string head would raise on
the subsequent `.get` just the same, so collapsing it to `exn` is
observationally faithful for the extraction expression). -/
def pyIndex0 (j : Json) : PyRes Json :=
  match j with
  | .arr (x :: _) => .ok x
  | _ => .exn

/-- Python `a or b` on JSON values. -/
def pyOr (a b : Json) : Json := if a.truthy then a else b

/-! String primitives are modelled over `List Char` (kernel-computable
and faithful to the Python operations used by the source). -/

/-- Does the second list start with the first? -/
def charsStarts : List Char → List Char → Bool
  | [], _ => true
  | _ :: _, [] => false
  | p :: ps, c :: cs => p == c && charsStarts ps cs

/-- Python `str.startswith(pat)`. -/
def strStarts (s pat : String) : Bool := charsStarts pat.data s.data

/-- Python `s[n:]` / dropping the first `n` characters. -/
def strDrop (s : String) (n : Nat) : String := ⟨s.data.drop n⟩

/-- Whitespace for Python `str.strip()`. -/
def pyIsSpace (c : Char) : Bool :=
  c == (' ') || c == ('\t') || c == ('\n') || c == ('\r')

/-- Strip whitespace from both ends of a character list. -/
def stripChars (l : List Char) : List Char :=
  ((((l.dropWhile pyIsSpace).reverse).dropWhile pyIsSpace).reverse)

/-- Python `str.strip()`. -/
def pyStrip (s : String) : String := ⟨stripChars s.data⟩

/-- Decimal digit value of a character, if any. -/
def digitVal (c : Char) : Option Nat :=
  if ('0') ≤ c ∧ c ≤ ('9') then some (c.toNat - ('0').toNat) else none

/-- Accumulate decimal digits; `none` on a non-digit. -/
def digitsToNatAux : List Char → Nat → Option Nat
  | [], acc => some acc
  | c :: cs, acc =>
    match digitVal c with
    | some d => digitsToNatAux cs (acc * 10 + d)
    | none => none

/-- Parse a nonempty all-digit character list. -/
def digitsToNat (l : List Char) : Option Nat :=
  if l.isEmpty then none else digitsToNatAux l 0

/-- Python `int(s)` on a string: strip whitespace, optional sign,
decimal digits; raises `ValueError` otherwise. -/
def pyStrToInt (s : String) : PyRes Int :=
  match stripChars s.data with
  | ('-') :: rest =>
    match digitsToNat rest with
    | some n => .ok (-(n : Int))
    | none => .exn
  | ('+') :: rest =>
    match digitsToNat rest with
    | some n => .ok (n : Int)
    | none => .exn
  | l =>
    match digitsToNat l with
    | some n => .ok (n : Int)
    | none => .exn

/-- Python `int(x)` on a JSON value: identity on integers, 0/1 on
booleans, decimal parse on strings (raising on unparsable text), raise
on everything else. -/
def pyInt (j : Json) : PyRes Int :=
  match j with
  | .num n => .ok n
  | .bool b => .ok (if b then 1 else 0)
  | .str s => pyStrToInt s
  | _ => .exn

/-- Lines 131-135 of `main.py`:
`result.get("choices", [{}])[0].get("message", {}).get("content")
 or result.get("choices", [{}])[0].get("text") or ""`
with Python's left-to-right short-circuit evaluation (the second
operand re-evaluates the same deterministic sub-expressions, so `c0` is
reused). -/
def extractReply (result : Json) : PyRes Json :=
  match pyGet result ("choices") (.arr [.obj []]) with
  | .exn => .exn
  | .ok choices =>
    match pyIndex0 choices with
    | .exn => .exn
    | .ok c0 =>
      match pyGet c0 ("message") (.obj []) with
      | .exn => .exn
      | .ok msg =>
        match pyGet msg ("content") .null with
        | .exn => .exn
        | .ok content =>
          if content.truthy then .ok content
          else
            match pyGet c0 ("text") .null with
            | .exn => .exn
            | .ok text => if text.truthy then .ok text else .ok (.str (""))

/-- Lines 136-140 of `main.py`:
`result.get("usage", {}).get("total_tokens")
 or result.get("usage", {}).get("total") or 0`. -/
def extractUsage (result : Json) : PyRes Json :=
  match pyGet result ("usage") (.obj []) with
  | .exn => .exn
  | .ok usage =>
    match pyGet usage ("total_tokens") .null with
    | .exn => .exn
    | .ok tt =>
      if tt.truthy then .ok tt
      else
        match pyGet usage ("total") .null with
        | .exn => .exn
        | .ok t => if t.truthy then .ok t else .ok (.num 0)

/-! ## Credential extraction (`main.py` lines 65-73) -/

/-- `bearer_from_header`: returns the stripped token after the
`Bearer ` prefix of the `Authorization` header, else `None`. -/
def bearer_from_header (authHeader : Option String) : Option String :=
  match authHeader with
  | some auth =>
    if strStarts auth ("Bearer ") then some (pyStrip (strDrop auth 7)) else none
  | none => none

/-- `extract_api_key`: `bearer_from_header(request) or api_key_qs` —
Python `or` falls through on a falsy (empty) bearer token too. -/
def extract_api_key (authHeader : Option String) (api_key_qs : Option String) :
    Option String :=
  match bearer_from_header authHeader with
  | some s => if s = ("") then api_key_qs else some s
  | none => api_key_qs

/-! ## Gateway state -/

/-- One conversation turn: `{"role": ..., "message": ...}`.  The
`message` is whatever JSON value the extraction produced (the request
message / the extracted reply). -/
structure Turn where
  role : String
  message : Json

/-- The `conversation_history` dictionary: identity → ordered turn
list, as an insertion-ordered association list (Python dict). -/
abbrev Hist := List (String × List Turn)

/-- Dictionary lookup on `conversation_history`. -/
def histFind : Hist → String → Option (List Turn)
  | [], _ => none
  | (k', v) :: rest, k => if k' = k then some v else histFind rest k

/-- Python `key in conversation_history`. -/
def histMem (h : Hist) (k : String) : Bool := (histFind h k).isSome

/-- Python `conversation_history.get(key, [])`. -/
def histGetD (h : Hist) (k : String) : List Turn := (histFind h k).getD []

/-- Python `conversation_history[key] = v`: overwrite in place if the
key exists (keeping its position), else insert at the end (dict
insertion order). -/
def histSet : Hist → String → List Turn → Hist
  | [], k, v => [(k, v)]
  | (k', v') :: rest, k, v =>
    if k' = k then (k', v) :: rest else (k', v') :: histSet rest k v

/-- Python `conversation_history[key].append(t)` (the handler only runs
this after ensuring the key exists, where it equals set-to-extended). -/
def histAppend (h : Hist) (k : String) (t : Turn) : Hist :=
  histSet h k (histGetD h k ++ [t])

/-- Lines 104-106 of `main.py`: `if USER_API not in conversation_history:
conversation_history[USER_API] = []` — note this runs on the request
path *before* the upstream call. -/
def ensureKey (h : Hist) (k : String) : Hist :=
  if histMem h k then h else h ++ [(k, [])]

/-- Process-wide mutable state: the two in-memory documents plus their
last-flushed (on-disk) contents.  `total_tokens` is the single counter
in `usage_data` (an integer after any write the handler performs). -/
structure St where
  conversation_history : Hist
  total_tokens : Int
  saved_history : Hist
  saved_total : Int

/-! ## Request / response shapes -/

/-- Validated configuration as loaded from the environment at start. -/
structure Config where
  USER_API : String
  PROVIDER_API_KEY : String
  PROVIDER_BASE_URL : String

/-- An inbound HTTP request as the handler sees it: the
`Authorization` header, the `api_key` query parameter (present in the
URL whether or not the endpoint declares it), and the JSON body
(`none` models a body on which `request.json()` raises). -/
structure ApiRequest where
  authorization : Option String
  api_key_qs : Option String
  body : Option Json

/-- Outcome of the single `httpx` call, following the httpx exception
taxonomy the handler distinguishes.  `ok none` models a 2xx response
whose body makes `response.json()` raise. -/
inductive Upstream where
  | readTimeout
  | connectTimeout
  | transportError
  | httpStatusError
  | ok (body : Option Json)

/-- Did the upstream call fail (raise inside the `try` block)? -/
def Upstream.isFailure : Upstream → Bool
  | .ok _ => false
  | _ => true

/-- The HTTP response produced by a handler. -/
inductive ApiResponse where
  /-- 200 `{"reply": ..., "usage": ...}` from `/localAPI`. -/
  | success (reply : Json) (usage : Json)
  /-- 200 `{"conversation_history": [...]}` from `/history`. -/
  | historyOk (turns : List Turn)
  /-- 200 `{"usage": {"total_tokens": n}}` from `/usage`. -/
  | usageOk (total : Int)
  /-- A raised `HTTPException(status_code, detail)`. -/
  | httpError (status : Nat) (detail : String)
  /-- Any other exception, mapped by the global exception handler to
  500 `{"error": "Contact the owner"}`. -/
  | internalError

/-- HTTP status code of a response. -/
def ApiResponse.status : ApiResponse → Nat
  | .success _ _ => 200
  | .historyOk _ => 200
  | .usageOk _ => 200
  | .httpError s _ => s
  | .internalError => 500

/-- The payload `client.post` sends to the provider. -/
structure UpstreamRequest where
  url : String
  authKey : String
  model : Json
  userContent : Json

/-- Result of one `/localAPI` request: the response, the state after
the request, and the upstream payload if the call was issued. -/
structure LocalResult where
  resp : ApiResponse
  st : St
  sent : Option UpstreamRequest

/-! ## The three authenticated handlers -/

/-- `POST /localAPI` (`main.py` lines 87-151), statement by statement:
config validation (500s), `request.json()` (raises → 500),
`data.get("message"/"model")` (raises on a non-dict body → 500), the
bearer-header-only credential check (401), history-key initialization,
the upstream call with its two `except` arms (504 read timeout /
502 other `httpx.HTTPError`), reply/usage extraction (raises → 500
without appending), the two appends, the usage increment
(`int(...)` raises → 500 *after* the appends), the synchronous flushes,
and the 200 response. -/
def local_api (cfg : Config) (req : ApiRequest) (up : Upstream) (st : St) :
    LocalResult :=
  if cfg.USER_API = ("") then
    ⟨.httpError 500 ("Server missing USER_API"), st, none⟩
  else if cfg.PROVIDER_API_KEY = ("") ∨ cfg.PROVIDER_BASE_URL = ("") then
    ⟨.httpError 500 ("Provider not configured"), st, none⟩
  else
    match req.body with
    | none => ⟨.internalError, st, none⟩
    | some bodyJson =>
      match bodyJson with
      | .obj fields =>
        let message : Json := (jsonFind fields ("message")).getD (.str (""))
        let model : Json := (jsonFind fields ("model")).getD (.str ("gpt-4o"))
        if bearer_from_header req.authorization ≠ some cfg.USER_API then
          ⟨.httpError 401 ("Invalid API key"), st, none⟩
        else
          let st1 : St :=
            { st with conversation_history :=
                ensureKey st.conversation_history cfg.USER_API }
          let sent : UpstreamRequest :=
            ⟨cfg.PROVIDER_BASE_URL ++ ("/chat/completions"),
              cfg.PROVIDER_API_KEY, model, message⟩
          match up with
          | .readTimeout =>
            ⟨.httpError 504 ("Upstream provider timeout"), st1, some sent⟩
          | .connectTimeout =>
            ⟨.httpError 502 ("Upstream provider error"), st1, some sent⟩
          | .transportError =>
            ⟨.httpError 502 ("Upstream provider error"), st1, some sent⟩
          | .httpStatusError =>
            ⟨.httpError 502 ("Upstream provider error"), st1, some sent⟩
          | .ok none => ⟨.internalError, st1, some sent⟩
          | .ok (some result) =>
            match extractReply result with
            | .exn => ⟨.internalError, st1, some sent⟩
            | .ok reply =>
              match extractUsage result with
              | .exn => ⟨.internalError, st1, some sent⟩
              | .ok used =>
                let newHist : Hist :=
                  histAppend
                    (histAppend st1.conversation_history cfg.USER_API
                      ⟨("user"), message⟩)
                    cfg.USER_API ⟨("bot"), reply⟩
                let st2 : St := { st1 with conversation_history := newHist }
                match pyInt (pyOr used (.num 0)) with
                | .exn => ⟨.internalError, st2, some sent⟩
                | .ok n =>
                  let st3 : St := { st2 with total_tokens := st2.total_tokens + n }
                  let st4 : St :=
                    { st3 with saved_history := st3.conversation_history,
                               saved_total := st3.total_tokens }
                  ⟨.success reply used, st4, some sent⟩
      | _ => ⟨.internalError, st, none⟩

/-- `GET /history` (`main.py` lines 154-165): header-or-query-param
credential, 401 on mismatch, otherwise the identity's log; never
mutates state. -/
def get_history (cfg : Config) (authHeader : Option String)
    (api_key : Option String) (st : St) : ApiResponse × St :=
  if extract_api_key authHeader api_key ≠ some cfg.USER_API then
    (.httpError 401 ("Invalid API key"), st)
  else
    (.historyOk (histGetD st.conversation_history cfg.USER_API), st)

/-- `GET /usage` (`main.py` lines 168-179): header-or-query-param
credential, 401 on mismatch, otherwise the usage document; never
mutates state. -/
def get_usage (cfg : Config) (authHeader : Option String)
    (api_key : Option String) (st : St) : ApiResponse × St :=
  if extract_api_key authHeader api_key ≠ some cfg.USER_API then
    (.httpError 401 ("Invalid API key"), st)
  else
    (.usageOk st.total_tokens, st)

/-! ## Shape of upstream bodies on which extraction cannot raise -/

/-- The `choices` value (when present) must be a nonempty array whose
first element is an object whose `message` field, when present, is an
object — otherwise one of the `.get`/`[0]` steps raises. -/
def goodChoices : Option Json → Bool
  | none => true
  | some (.arr (c0 :: _)) =>
    match c0 with
    | .obj cf =>
      (match jsonFind cf ("message") with
       | none => true
       | some (.obj _) => true
       | some _ => false)
    | _ => false
  | some _ => false

/-- The `usage` value (when present) must be an object. -/
def goodUsage : Option Json → Bool
  | none => true
  | some (.obj _) => true
  | some _ => false

/-- Upstream bodies on which the line 130-140 extraction is
exception-free: a JSON object with well-shaped `choices` and `usage`. -/
def wellShaped : Json → Bool
  | .obj fields =>
    goodChoices (jsonFind fields ("choices")) &&
      goodUsage (jsonFind fields ("usage"))
  | _ => false

/-! ## Sequences of gateway operations (for the usage-counter invariant) -/

/-- One inbound request to an authenticated endpoint. -/
inductive Op where
  | post (req : ApiRequest) (up : Upstream)
  | history (authHeader : Option String) (api_key : Option String)
  | usage (authHeader : Option String) (api_key : Option String)

/-- State transition of one request. -/
def applyOp (cfg : Config) (st : St) : Op → St
  | .post req up => (local_api cfg req up st).st
  | .history a q => (get_history cfg a q st).2
  | .usage a q => (get_usage cfg a q st).2

/-- State after a sequence of requests. -/
def runOps (cfg : Config) (st : St) (ops : List Op) : St :=
  ops.foldl (applyOp cfg) st

/-- The amount `int(used_tokens or 0)` the success path would add for a
given upstream outcome (0 when the success path cannot be reached or
the conversion raises before the increment). -/
def usageDelta (up : Upstream) : Int :=
  match up with
  | .ok (some result) =>
    (match extractUsage result with
     | .ok u =>
       (match pyInt (pyOr u (.num 0)) with
        | .ok n => n
        | .exn => 0)
     | .exn => 0)
  | _ => 0

/-- An operation whose (potential) usage increment is non-negative. -/
def opUsageNonNeg : Op → Bool
  | .post _ up => decide (0 ≤ usageDelta up)
  | _ => true

/-! ## Concurrency model for `/localAPI`

FastAPI/uvicorn run `async def` handlers on a single-threaded asyncio
event loop: a running handler executes its statements uninterrupted and
other requests can only be scheduled while it is suspended at an
`await` (here `await request.json()` and `await client.post(...)`) or
finished.  Each handler is modelled as the list of its state-relevant
statements, in source order, with a `yieldPoint` wherever the source
awaits.  Flushing (`save_history`) publishes the whole in-memory
document to the persisted file, synchronously. -/

/-- State-relevant atomic statements of the `/localAPI` handler. -/
inductive Stmt where
  /-- an `await` in the handler (suspension point) -/
  | yieldPoint
  /-- lines 104-106: initialize this identity's history -/
  | ensure
  /-- line 143: append the user turn -/
  | appendUser (m : Json)
  /-- line 144: append the bot turn -/
  | appendBot (r : Json)
  /-- line 145: add to `total_tokens` -/
  | addUsage (n : Int)
  /-- line 148: `save_history()` -/
  | saveHistory
  /-- line 149: `save_usage()` -/
  | saveUsage

/-- The statement trace of one successful `/localAPI` request:
`await request.json()`; ensure-key; `await client.post`; the two
appends; the usage increment; the two flushes. -/
def successTrace (m r : Json) (n : Int) : List Stmt :=
  [.yieldPoint, .ensure, .yieldPoint, .appendUser m, .appendBot r,
   .addUsage n, .saveHistory, .saveUsage]

/-- The statement trace of a `/localAPI` request whose upstream call
fails (no mutation after the await). -/
def failureTrace : List Stmt :=
  [.yieldPoint, .ensure, .yieldPoint]

/-- Global state of the interleaving system: the two documents, their
persisted mirrors, the remaining statements of each task, and the most
recently running task. -/
structure CState where
  mem : Hist
  persisted : Hist
  memTotal : Int
  diskTotal : Int
  tasks : List (List Stmt)
  cur : Option Nat

/-- Effect of one statement on the documents (for the single identity
`uid = USER_API` every handler uses). -/
def execStmt (uid : String) (s : Stmt) (c : CState) : CState :=
  match s with
  | .yieldPoint => c
  | .ensure => { c with mem := ensureKey c.mem uid }
  | .appendUser m => { c with mem := histAppend c.mem uid ⟨("user"), m⟩ }
  | .appendBot r => { c with mem := histAppend c.mem uid ⟨("bot"), r⟩ }
  | .addUsage n => { c with memTotal := c.memTotal + n }
  | .saveHistory => { c with persisted := c.mem }
  | .saveUsage => { c with diskTotal := c.memTotal }

/-- A task that can lose the processor: suspended at an `await`, or
finished. -/
def atYieldOrDone : List Stmt → Bool
  | [] => true
  | .yieldPoint :: _ => true
  | _ => false

/-- One scheduler step: task `i` executes its next statement.  The
event loop only switches tasks while the current task is suspended at
an `await` or finished (`hsched`). -/
inductive CStep (uid : String) : CState → CState → Prop where
  | exec (c : CState) (i : Nat) (s : Stmt) (rest : List Stmt)
      (htask : c.tasks[i]? = some (s :: rest))
      (hsched : ∀ j t, c.cur = some j → j ≠ i → c.tasks[j]? = some t →
        atYieldOrDone t = true) :
      CStep uid c
        { execStmt uid s c with tasks := c.tasks.set i rest, cur := some i }

/-- A turn list consisting solely of adjacent, complete
`(user, bot)` pairs. -/
def pairsOnly : List Turn → Bool
  | [] => true
  | [_] => false
  | u :: b :: rest => u.role == ("user") && b.role == ("bot") && pairsOnly rest


/-- Programs a task can be left with: suffixes of one of the two
`/localAPI` handler traces. -/
def taskOk (t : List Stmt) : Prop :=
  (∃ m r n, t <:+ successTrace m r n) ∨ t <:+ failureTrace

/-- The running task has appended its user turn but not yet its bot
turn (its next statement is the bot append). -/
def MidApp (c : CState) : Prop :=
  ∃ j r rest, c.cur = some j ∧ c.tasks[j]? = some (Stmt.appendBot r :: rest)

/-- Scheduler invariant: every task holds a residual handler program;
non-running tasks sit at an `await` or are finished; the persisted log
is always complete pairs; and the in-memory log is complete pairs
except exactly mid-append, where it carries one trailing user turn. -/
def Inv (uid : String) (c : CState) : Prop :=
  (∀ t ∈ c.tasks, taskOk t)
  ∧ (∀ j t, c.tasks[j]? = some t → c.cur = some j ∨ atYieldOrDone t = true)
  ∧ pairsOnly (histGetD c.persisted uid) = true
  ∧ (MidApp c → ∃ l m, pairsOnly l = true ∧
      histGetD c.mem uid = l ++ [⟨("user"), m⟩])
  ∧ (¬ MidApp c → pairsOnly (histGetD c.mem uid) = true)

/-! ## Dictionary and list lemmas -/

theorem histFind_set_self (h : Hist) (k : String) (v : List Turn) :
    histFind (histSet h k v) k = some v := by
  induction h with
  | nil => simp [histSet, histFind]
  | cons p rest ih =>
    obtain ⟨k', v'⟩ := p
    by_cases hk : k' = k <;> simp [histSet, histFind, hk, ih]

theorem histFind_set_ne (h : Hist) (k k' : String) (v : List Turn)
    (hne : k' ≠ k) : histFind (histSet h k v) k' = histFind h k' := by
  induction h with
  | nil => simp [histSet, histFind, Ne.symm hne]
  | cons p rest ih =>
    obtain ⟨k0, v0⟩ := p
    by_cases hk : k0 = k
    · subst hk
      simp [histSet, histFind, Ne.symm hne]
    · simp [histSet, histFind, hk, ih]

theorem histFind_concat_ne (h : Hist) (k k' : String) (v : List Turn)
    (hne : k' ≠ k) : histFind (h ++ [(k, v)]) k' = histFind h k' := by
  induction h with
  | nil => simp [histFind, Ne.symm hne]
  | cons p rest ih =>
    obtain ⟨k0, v0⟩ := p
    by_cases hk : k0 = k' <;> simp [histFind, hk, ih]

theorem histFind_concat_self (h : Hist) (k : String) (v : List Turn)
    (habs : histFind h k = none) : histFind (h ++ [(k, v)]) k = some v := by
  induction h with
  | nil => simp [histFind]
  | cons p rest ih =>
    obtain ⟨k0, v0⟩ := p
    by_cases hk : k0 = k
    · simp [histFind, hk] at habs
    · simp [histFind, hk] at habs ⊢
      exact ih habs

theorem histGetD_append_self (h : Hist) (k : String) (t : Turn) :
    histGetD (histAppend h k t) k = histGetD h k ++ [t] := by
  simp [histAppend, histGetD, histFind_set_self]

theorem histFind_append_ne (h : Hist) (k k' : String) (t : Turn)
    (hne : k' ≠ k) : histFind (histAppend h k t) k' = histFind h k' := by
  simp [histAppend, histFind_set_ne h k k' _ hne]

theorem histGetD_ensure (h : Hist) (k k' : String) :
    histGetD (ensureKey h k) k' = histGetD h k' := by
  unfold ensureKey
  by_cases hmem : histMem h k
  · simp [hmem]
  · simp only [hmem, if_false]
    by_cases hk : k' = k
    · subst hk
      unfold histMem at hmem
      have habs : histFind h k' = none := by
        cases hfind : histFind h k' <;> simp [hfind] at hmem ⊢
      simp [histGetD, histFind_concat_self h k' [] habs, habs]
    · simp [histGetD, histFind_concat_ne h k k' [] hk]

theorem pairsOnly_concat_pair (m r : Json) :
    ∀ l : List Turn, pairsOnly l = true →
      pairsOnly (l ++ [⟨("user"), m⟩, ⟨("bot"), r⟩]) = true
  | [], _ => by simp [pairsOnly]
  | [_], h => by simp [pairsOnly] at h
  | u :: b :: rest, h => by
    simp only [pairsOnly, Bool.and_eq_true] at h
    obtain ⟨⟨h1, h2⟩, h3⟩ := h
    simpa [pairsOnly, h1, h2] using pairsOnly_concat_pair m r rest h3

theorem pyInt_pyOr_num (k : Int) : pyInt (pyOr (.num k) (.num 0)) = .ok k := by
  by_cases hk : k = 0 <;> simp [pyOr, pyInt, Json.truthy, hk]

theorem histGetD_append_pair (h : Hist) (u : String) (t1 t2 : Turn) :
    histGetD (histAppend (histAppend (ensureKey h u) u t1) u t2) u =
      histGetD h u ++ [t1, t2] := by
  rw [histGetD_append_self, histGetD_append_self, histGetD_ensure,
    List.append_assoc]
  rfl

/-! ## Claim theorems -/

/-- C10: on `POST /localAPI`, configuration validation and JSON body
parsing both precede the credential check — whenever the server secret,
provider key, or provider base URL is unset, or the body is not valid
JSON, the response is HTTP 500, regardless of the presented
credential (in particular an invalid credential gets 500, not 401). -/
theorem c10_config_and_parse_precede_auth (cfg : Config) (req : ApiRequest)
    (up : Upstream) (st : St)
    (h : cfg.USER_API = ("") ∨ cfg.PROVIDER_API_KEY = ("") ∨
      cfg.PROVIDER_BASE_URL = ("") ∨ req.body = none) :
    ((local_api cfg req up st).resp).status = 500 := by
  unfold local_api
  rcases h with h | h | h | h
  · simp [h, ApiResponse.status]
  · by_cases h1 : cfg.USER_API = ("")
    · simp [h1, ApiResponse.status]
    · simp [h1, h, ApiResponse.status]
  · by_cases h1 : cfg.USER_API = ("")
    · simp [h1, ApiResponse.status]
    · simp [h1, h, ApiResponse.status]
  · by_cases h1 : cfg.USER_API = ("")
    · simp [h1, ApiResponse.status]
    · by_cases h2 : cfg.PROVIDER_API_KEY = ("") ∨ cfg.PROVIDER_BASE_URL = ("")
      · simp [h1, h2, ApiResponse.status]
      · simp [h1, h2, h, ApiResponse.status]

/-- Witness for C10: an unset server secret together with an invalid
bearer credential produces 500 (not 401). -/
theorem c10_witness :
    ((local_api ⟨(""), ("pk"), ("u")⟩ ⟨some ("Bearer wrong"), none, none⟩
        .readTimeout ⟨[], 0, [], 0⟩).resp).status = 500 :=
  c10_config_and_parse_precede_auth _ _ _ _ (Or.inl rfl)

/-- C9: a `/localAPI` body that omits `message` defaults it to the
empty string — forwarded to the provider as the user content — and an
omitted `model` defaults to `gpt-4o`; on a successful, extractable
upstream response the empty-string message is recorded as the user
turn. -/
theorem c9_body_defaults (cfg : Config) (req : ApiRequest) (up : Upstream)
    (st : St) (fields : List (String × Json))
    (h1 : cfg.USER_API ≠ (""))
    (h2 : cfg.PROVIDER_API_KEY ≠ (""))
    (h3 : cfg.PROVIDER_BASE_URL ≠ (""))
    (hb : req.body = some (.obj fields))
    (hmsg : jsonFind fields ("message") = none)
    (hmodel : jsonFind fields ("model") = none)
    (ha : bearer_from_header req.authorization = some cfg.USER_API) :
    (local_api cfg req up st).sent =
      some ⟨cfg.PROVIDER_BASE_URL ++ ("/chat/completions"),
        cfg.PROVIDER_API_KEY, .str ("gpt-4o"), .str ("")⟩
    ∧ (∀ result reply used, up = .ok (some result) →
        extractReply result = .ok reply → extractUsage result = .ok used →
        histGetD (local_api cfg req up st).st.conversation_history
            cfg.USER_API =
          histGetD st.conversation_history cfg.USER_API ++
            [⟨("user"), .str ("")⟩, ⟨("bot"), reply⟩]) := by
  unfold local_api
  rw [hb]
  simp only [h1, h2, h3, ha, hmsg, hmodel, if_neg, or_self, or_false,
    false_or, if_false, ite_false, Option.getD_none, ne_eq,
    not_true_eq_false, reduceIte]
  constructor
  · cases up with
    | ok body =>
      cases body with
      | none => rfl
      | some result =>
        cases hr : extractReply result with
        | exn => simp [hr]
        | ok reply =>
          cases hu : extractUsage result with
          | exn => simp [hr, hu]
          | ok used =>
            cases hp : pyInt (pyOr used (.num 0)) <;> simp [hr, hu, hp]
    | readTimeout => rfl
    | connectTimeout => rfl
    | transportError => rfl
    | httpStatusError => rfl
  · intro result reply used hup hr hu
    subst hup
    simp only [hr, hu]
    cases hp : pyInt (pyOr used (.num 0)) <;>
      simp [hp, histGetD_append_pair]

theorem histFind_ensure_ne (h : Hist) (k k' : String) (hne : k' ≠ k) :
    histFind (ensureKey h k) k' = histFind h k' := by
  unfold ensureKey
  by_cases hmem : histMem h k
  · simp [hmem]
  · simp [hmem, histFind_concat_ne h k k' [] hne]

/-- Witness for C9: an empty-object body yields the default payload
`model = "gpt-4o"`, `content = ""`, and the empty string is recorded as
the user turn. -/
theorem c9_witness :
    (local_api ⟨("s"), ("pk"), ("u")⟩
        ⟨some ("Bearer s"), none, some (.obj [])⟩
        (.ok (some (.obj [(("choices"),
          .arr [.obj [(("message"), .obj [(("content"), .str ("hello"))])]])])))
        ⟨[], 0, [], 0⟩).sent =
      some ⟨("u") ++ ("/chat/completions"), ("pk"), .str ("gpt-4o"), .str ("")⟩
    ∧ histGetD (local_api ⟨("s"), ("pk"), ("u")⟩
        ⟨some ("Bearer s"), none, some (.obj [])⟩
        (.ok (some (.obj [(("choices"),
          .arr [.obj [(("message"), .obj [(("content"), .str ("hello"))])]])])))
        ⟨[], 0, [], 0⟩).st.conversation_history ("s") =
      [⟨("user"), .str ("")⟩, ⟨("bot"), .str ("hello")⟩] := by
  have h := c9_body_defaults ⟨("s"), ("pk"), ("u")⟩
    ⟨some ("Bearer s"), none, some (.obj [])⟩
    (.ok (some (.obj [(("choices"),
      .arr [.obj [(("message"), .obj [(("content"), .str ("hello"))])]])])))
    ⟨[], 0, [], 0⟩ [] (by decide) (by decide) (by decide) rfl rfl rfl rfl
  exact ⟨h.1, by simpa using h.2 _ _ _ rfl rfl rfl⟩

/-- C1 (amended): with a correct bearer credential, valid
configuration, a JSON-object body, and a successful upstream call whose
body admits exception-free extraction with an integer (or zero
fallback) usage, the handler appends exactly the two turns (user with
the request message, then bot with the extracted reply), increases
`total_tokens` by exactly that amount, flushes both documents, leaves
every other identity's log untouched, and responds 200
`{reply, usage}`. -/
theorem c1_success_path (cfg : Config) (req : ApiRequest) (up : Upstream)
    (st : St) (fields : List (String × Json)) (result reply : Json) (k : Int)
    (h1 : cfg.USER_API ≠ (""))
    (h2 : cfg.PROVIDER_API_KEY ≠ (""))
    (h3 : cfg.PROVIDER_BASE_URL ≠ (""))
    (hb : req.body = some (.obj fields))
    (ha : bearer_from_header req.authorization = some cfg.USER_API)
    (hup : up = .ok (some result))
    (hr : extractReply result = .ok reply)
    (hu : extractUsage result = .ok (.num k)) :
    (local_api cfg req up st).resp = .success reply (.num k)
    ∧ histGetD (local_api cfg req up st).st.conversation_history
        cfg.USER_API =
      histGetD st.conversation_history cfg.USER_API ++
        [⟨("user"), (jsonFind fields ("message")).getD (.str (""))⟩,
          ⟨("bot"), reply⟩]
    ∧ (local_api cfg req up st).st.total_tokens = st.total_tokens + k
    ∧ (local_api cfg req up st).st.saved_history =
        (local_api cfg req up st).st.conversation_history
    ∧ (local_api cfg req up st).st.saved_total =
        (local_api cfg req up st).st.total_tokens
    ∧ (∀ id2, id2 ≠ cfg.USER_API →
        histFind (local_api cfg req up st).st.conversation_history id2 =
          histFind st.conversation_history id2) := by
  subst hup
  unfold local_api
  rw [hb]
  simp only [h1, h2, h3, ha, hr, hu, pyInt_pyOr_num, if_neg, or_self,
    or_false, false_or, if_false, ite_false, ne_eq, not_true_eq_false,
    reduceIte]
  refine ⟨trivial, histGetD_append_pair _ _ _ _, trivial, trivial, trivial, ?_⟩
  intro id2 hne
  rw [histFind_append_ne _ _ _ _ hne, histFind_append_ne _ _ _ _ hne,
    histFind_ensure_ne _ _ _ hne]

/-- Witness for C1 (amended): the spec §8 scenario — message "hi",
upstream reply "hello" with 5 total tokens. -/
theorem c1_witness :
    (local_api ⟨("s"), ("pk"), ("u")⟩
        ⟨some ("Bearer s"), none, some (.obj [(("message"), .str ("hi"))])⟩
        (.ok (some (.obj [(("choices"),
          .arr [.obj [(("message"), .obj [(("content"), .str ("hello"))])]]),
          (("usage"), .obj [(("total_tokens"), .num 5)])])))
        ⟨[], 0, [], 0⟩).resp = .success (.str ("hello")) (.num 5)
    ∧ (local_api ⟨("s"), ("pk"), ("u")⟩
        ⟨some ("Bearer s"), none, some (.obj [(("message"), .str ("hi"))])⟩
        (.ok (some (.obj [(("choices"),
          .arr [.obj [(("message"), .obj [(("content"), .str ("hello"))])]]),
          (("usage"), .obj [(("total_tokens"), .num 5)])])))
        ⟨[], 0, [], 0⟩).st.total_tokens = 0 + 5 := by
  have h := c1_success_path ⟨("s"), ("pk"), ("u")⟩
    ⟨some ("Bearer s"), none, some (.obj [(("message"), .str ("hi"))])⟩
    (.ok (some (.obj [(("choices"),
      .arr [.obj [(("message"), .obj [(("content"), .str ("hello"))])]]),
      (("usage"), .obj [(("total_tokens"), .num 5)])])))
    ⟨[], 0, [], 0⟩ [(("message"), .str ("hi"))] _ (.str ("hello")) 5
    (by decide) (by decide) (by decide) rfl rfl rfl rfl rfl
  exact ⟨h.1, h.2.2.1⟩

/-- Counterexample to C1 as stated: correct credential, valid config,
and a *successful* upstream call (HTTP 2xx, parseable JSON body
`{"choices": []}`) — yet the handler raises `IndexError` during
extraction, answers 500, and appends no turns. -/
theorem c1_counterexample :
    ((local_api ⟨("s"), ("pk"), ("u")⟩
        ⟨some ("Bearer s"), none, some (.obj [(("message"), .str ("hi"))])⟩
        (.ok (some (.obj [(("choices"), .arr [])])))
        ⟨[], 0, [], 0⟩).resp = .internalError)
    ∧ histGetD (local_api ⟨("s"), ("pk"), ("u")⟩
        ⟨some ("Bearer s"), none, some (.obj [(("message"), .str ("hi"))])⟩
        (.ok (some (.obj [(("choices"), .arr [])])))
        ⟨[], 0, [], 0⟩).st.conversation_history ("s") = []
    ∧ ApiResponse.internalError.status ≠ 200 :=
  ⟨rfl, rfl, by decide⟩

/-- C2 (amended): with valid configuration, a JSON-object body and a
correct credential, an upstream *read* timeout yields 504 and every
other transport failure — including connect-phase timeouts — or
non-2xx status yields 502; on every failure path the usage counter,
both persisted documents, and every identity's log *content* are
unchanged (the only in-memory effect is that an empty log entry is
created for the identity if it was absent). -/
theorem c2_failure_paths (cfg : Config) (req : ApiRequest) (up : Upstream)
    (st : St) (fields : List (String × Json))
    (h1 : cfg.USER_API ≠ (""))
    (h2 : cfg.PROVIDER_API_KEY ≠ (""))
    (h3 : cfg.PROVIDER_BASE_URL ≠ (""))
    (hb : req.body = some (.obj fields))
    (ha : bearer_from_header req.authorization = some cfg.USER_API) :
    (up = .readTimeout →
      (local_api cfg req up st).resp =
        .httpError 504 ("Upstream provider timeout"))
    ∧ (up = .connectTimeout ∨ up = .transportError ∨ up = .httpStatusError →
      (local_api cfg req up st).resp =
        .httpError 502 ("Upstream provider error"))
    ∧ (up.isFailure = true →
      (local_api cfg req up st).st.total_tokens = st.total_tokens
      ∧ (local_api cfg req up st).st.saved_history = st.saved_history
      ∧ (local_api cfg req up st).st.saved_total = st.saved_total
      ∧ (∀ id2, histGetD (local_api cfg req up st).st.conversation_history
            id2 = histGetD st.conversation_history id2)
      ∧ (local_api cfg req up st).st.conversation_history =
          ensureKey st.conversation_history cfg.USER_API) := by
  unfold local_api
  rw [hb]
  simp only [h1, h2, h3, ha, if_neg, or_self, or_false, false_or, if_false,
    ite_false, ne_eq, not_true_eq_false, reduceIte]
  refine ⟨?_, ?_, ?_⟩
  · rintro rfl
    trivial
  · rintro (rfl | rfl | rfl) <;> trivial
  · intro hf
    cases up with
    | readTimeout =>
      exact ⟨rfl, rfl, rfl, fun id2 => histGetD_ensure _ _ _, rfl⟩
    | connectTimeout =>
      exact ⟨rfl, rfl, rfl, fun id2 => histGetD_ensure _ _ _, rfl⟩
    | transportError =>
      exact ⟨rfl, rfl, rfl, fun id2 => histGetD_ensure _ _ _, rfl⟩
    | httpStatusError =>
      exact ⟨rfl, rfl, rfl, fun id2 => histGetD_ensure _ _ _, rfl⟩
    | ok body => simp [Upstream.isFailure] at hf

/-- Witness for C2 (amended): a read timeout gets 504 and leaves the
usage counter and persisted documents unchanged. -/
theorem c2_witness :
    (local_api ⟨("s"), ("pk"), ("u")⟩
        ⟨some ("Bearer s"), none, some (.obj [(("message"), .str ("hi"))])⟩
        .readTimeout ⟨[], 7, [], 7⟩).resp =
      .httpError 504 ("Upstream provider timeout")
    ∧ (local_api ⟨("s"), ("pk"), ("u")⟩
        ⟨some ("Bearer s"), none, some (.obj [(("message"), .str ("hi"))])⟩
        .readTimeout ⟨[], 7, [], 7⟩).st.total_tokens = 7 := by
  have h := c2_failure_paths ⟨("s"), ("pk"), ("u")⟩
    ⟨some ("Bearer s"), none, some (.obj [(("message"), .str ("hi"))])⟩
    .readTimeout ⟨[], 7, [], 7⟩ [(("message"), .str ("hi"))]
    (by decide) (by decide) (by decide) rfl rfl
  exact ⟨h.1 rfl, (h.2.2 rfl).1⟩

/-- Counterexample to C2 as stated: (i) a connect-phase timeout — a
timeout of the upstream call — is answered 502, not 504 (only
`httpx.ReadTimeout` is caught by the 504 arm); (ii) on a read timeout
of a first-ever request the in-memory `conversation_history` dictionary
is mutated (`{} → {"s": []}`), so the state after the request is not
the state before it. -/
theorem c2_counterexample :
    ((local_api ⟨("s"), ("pk"), ("u")⟩
        ⟨some ("Bearer s"), none, some (.obj [(("message"), .str ("hi"))])⟩
        .connectTimeout ⟨[], 0, [], 0⟩).resp).status = 502
    ∧ (local_api ⟨("s"), ("pk"), ("u")⟩
        ⟨some ("Bearer s"), none, some (.obj [(("message"), .str ("hi"))])⟩
        .readTimeout ⟨[], 0, [], 0⟩).st.conversation_history =
      [(("s"), [])]
    ∧ ([(("s"), ([] : List Turn))] : Hist) ≠ [] :=
  ⟨rfl, rfl, by simp⟩

/-- C3 (amended): a missing or mismatching credential yields 401 with
no state mutation — on `/history` and `/usage` unconditionally, and on
`/localAPI` provided the configuration is set and the body parses as a
JSON object (otherwise those earlier checks answer 500 first). -/
theorem c3_unauthenticated (cfg : Config) (st : St) :
    (∀ (req : ApiRequest) (up : Upstream) (fields : List (String × Json)),
      cfg.USER_API ≠ ("") → cfg.PROVIDER_API_KEY ≠ ("") →
      cfg.PROVIDER_BASE_URL ≠ ("") → req.body = some (.obj fields) →
      bearer_from_header req.authorization ≠ some cfg.USER_API →
      (local_api cfg req up st).resp = .httpError 401 ("Invalid API key")
      ∧ (local_api cfg req up st).st = st)
    ∧ (∀ a q, extract_api_key a q ≠ some cfg.USER_API →
      (get_history cfg a q st).1 = .httpError 401 ("Invalid API key")
      ∧ (get_history cfg a q st).2 = st)
    ∧ (∀ a q, extract_api_key a q ≠ some cfg.USER_API →
      (get_usage cfg a q st).1 = .httpError 401 ("Invalid API key")
      ∧ (get_usage cfg a q st).2 = st) := by
  refine ⟨?_, ?_, ?_⟩
  · intro req up fields h1 h2 h3 hb hk
    unfold local_api
    rw [hb]
    simp [h1, h2, h3, hk]
  · intro a q hk
    unfold get_history
    simp [hk]
  · intro a q hk
    unfold get_usage
    simp [hk]

/-- Witness for C3 (amended): a wrong bearer key on each endpoint gets
401 and leaves the state untouched. -/
theorem c3_witness :
    ((local_api ⟨("s"), ("pk"), ("u")⟩
        ⟨some ("Bearer wrong"), none, some (.obj [])⟩
        .readTimeout ⟨[], 3, [], 3⟩).resp =
      .httpError 401 ("Invalid API key"))
    ∧ (local_api ⟨("s"), ("pk"), ("u")⟩
        ⟨some ("Bearer wrong"), none, some (.obj [])⟩
        .readTimeout ⟨[], 3, [], 3⟩).st = ⟨[], 3, [], 3⟩
    ∧ (get_history ⟨("s"), ("pk"), ("u")⟩ none none ⟨[], 3, [], 3⟩).1 =
      .httpError 401 ("Invalid API key")
    ∧ (get_usage ⟨("s"), ("pk"), ("u")⟩ (some ("Bearer wrong")) none
        ⟨[], 3, [], 3⟩).1 = .httpError 401 ("Invalid API key") := by
  have h := c3_unauthenticated ⟨("s"), ("pk"), ("u")⟩ ⟨[], 3, [], 3⟩
  refine ⟨?_, ?_, ?_, ?_⟩
  · exact (h.1 ⟨some ("Bearer wrong"), none, some (.obj [])⟩ .readTimeout []
      (by decide) (by decide) (by decide) rfl (by decide)).1
  · exact (h.1 ⟨some ("Bearer wrong"), none, some (.obj [])⟩ .readTimeout []
      (by decide) (by decide) (by decide) rfl (by decide)).2
  · exact (h.2.1 none none (by decide)).1
  · exact (h.2.2 (some ("Bearer wrong")) none (by decide)).1

/-- Counterexample to C3 as stated: with the server secret unset, a
request to `/localAPI` with a mismatching credential is answered 500,
not 401. -/
theorem c3_counterexample :
    ((local_api ⟨(""), ("pk"), ("u")⟩
        ⟨some ("Bearer wrong"), none, some (.obj [])⟩
        .readTimeout ⟨[], 0, [], 0⟩).resp).status = 500
    ∧ ((local_api ⟨(""), ("pk"), ("u")⟩
        ⟨some ("Bearer wrong"), none, some (.obj [])⟩
        .readTimeout ⟨[], 0, [], 0⟩).resp).status ≠ 401 :=
  ⟨rfl, by decide⟩

/-- C5: a credential supplied only as a query parameter can satisfy
authentication on the read-only endpoints (when the header yields no
bearer token), while `POST /localAPI` ignores the query parameter
entirely — its result is invariant in `api_key_qs`, and with no bearer
header the query-parameter secret still gets 401. -/
theorem c5_query_param_asymmetry (cfg : Config) (st : St) :
    (∀ a, bearer_from_header a = none →
      ((get_history cfg a (some cfg.USER_API) st).1).status = 200
      ∧ ((get_usage cfg a (some cfg.USER_API) st).1).status = 200)
    ∧ (∀ (req : ApiRequest) (up : Upstream) (q : Option String),
        local_api cfg { req with api_key_qs := q } up st =
          local_api cfg req up st)
    ∧ (∀ (req : ApiRequest) (up : Upstream) (fields : List (String × Json)),
        cfg.USER_API ≠ ("") → cfg.PROVIDER_API_KEY ≠ ("") →
        cfg.PROVIDER_BASE_URL ≠ ("") → req.body = some (.obj fields) →
        bearer_from_header req.authorization = none →
        (local_api cfg { req with api_key_qs := some cfg.USER_API } up
            st).resp = .httpError 401 ("Invalid API key")) := by
  refine ⟨?_, ?_, ?_⟩
  · intro a ha
    constructor <;>
      simp [get_history, get_usage, extract_api_key, ha, ApiResponse.status]
  · intro req up q
    rfl
  · intro req up fields h1 h2 h3 hb ha
    unfold local_api
    dsimp only
    rw [hb]
    simp [h1, h2, h3, ha]

/-- Witness for C5: query-param secret authenticates `/history` but not
`/localAPI`. -/
theorem c5_witness :
    ((get_history ⟨("s"), ("pk"), ("u")⟩ none (some ("s"))
        ⟨[], 0, [], 0⟩).1).status = 200
    ∧ (local_api ⟨("s"), ("pk"), ("u")⟩ ⟨none, some ("s"), some (.obj [])⟩
        .readTimeout ⟨[], 0, [], 0⟩).resp =
      .httpError 401 ("Invalid API key") := by
  have h := c5_query_param_asymmetry ⟨("s"), ("pk"), ("u")⟩ ⟨[], 0, [], 0⟩
  exact ⟨(h.1 none rfl).1,
    h.2.2 ⟨none, none, some (.obj [])⟩ .readTimeout []
      (by decide) (by decide) (by decide) rfl rfl⟩

/-- C6 (amended): the credential check is exact equality against the
configured secret: an absent credential or any mismatch is rejected
with 401 (and the check never raises — it is a total comparison); but
there is no special rejection of an empty configured secret: a
presented credential equal to the secret is accepted even when the
secret is the empty string. -/
theorem c6_auth_exact_equality (cfg : Config) (st : St) :
    (∀ a q, extract_api_key a q = none →
      ((get_history cfg a q st).1 = .httpError 401 ("Invalid API key")
      ∧ (get_usage cfg a q st).1 = .httpError 401 ("Invalid API key")))
    ∧ (∀ a q p, extract_api_key a q = some p → p ≠ cfg.USER_API →
      ((get_history cfg a q st).1 = .httpError 401 ("Invalid API key")
      ∧ (get_usage cfg a q st).1 = .httpError 401 ("Invalid API key")))
    ∧ (∀ a q, extract_api_key a q = some cfg.USER_API →
      (((get_history cfg a q st).1).status = 200
      ∧ ((get_usage cfg a q st).1).status = 200)) := by
  refine ⟨?_, ?_, ?_⟩
  · intro a q hk
    constructor <;> simp [get_history, get_usage, hk]
  · intro a q p hk hp
    constructor <;> simp [get_history, get_usage, hk, hp]
  · intro a q hk
    constructor <;> simp [get_history, get_usage, hk, ApiResponse.status]

/-- Witness for C6 (amended): absent credential rejected; mismatching
bearer rejected; and with an empty configured secret an empty
query-param credential is accepted. -/
theorem c6_witness :
    (get_history ⟨("s"), ("pk"), ("u")⟩ none none ⟨[], 0, [], 0⟩).1 =
      .httpError 401 ("Invalid API key")
    ∧ (get_usage ⟨("s"), ("pk"), ("u")⟩ (some ("Bearer x")) none
        ⟨[], 0, [], 0⟩).1 = .httpError 401 ("Invalid API key")
    ∧ ((get_usage ⟨(""), ("pk"), ("u")⟩ none (some (""))
        ⟨[], 0, [], 0⟩).1).status = 200 := by
  refine ⟨?_, ?_, ?_⟩
  · exact ((c6_auth_exact_equality ⟨("s"), ("pk"), ("u")⟩ ⟨[], 0, [], 0⟩).1
      none none rfl).1
  · exact ((c6_auth_exact_equality ⟨("s"), ("pk"), ("u")⟩ ⟨[], 0, [], 0⟩).2.1
      (some ("Bearer x")) none ("x") rfl (by decide)).2
  · exact ((c6_auth_exact_equality ⟨(""), ("pk"), ("u")⟩ ⟨[], 0, [], 0⟩).2.2
      none (some ("")) rfl).2

/-- Counterexample to C6 as stated: with an empty configured secret, a
request presenting the empty credential (query parameter `api_key=`) is
*not* rejected — `/usage` answers 200, not 401. -/
theorem c6_counterexample :
    ((get_usage ⟨(""), ("pk"), ("u")⟩ none (some ("")) ⟨[], 0, [], 0⟩).1).status
      = 200
    ∧ ((get_usage ⟨(""), ("pk"), ("u")⟩ none (some (""))
        ⟨[], 0, [], 0⟩).1).status ≠ 401 :=
  ⟨rfl, by decide⟩

theorem isOk_ite (c : Prop) [inst : Decidable c] (a : Json) (r : PyRes Json)
    (hr : r.isOk = true) : (if c then PyRes.ok a else r).isOk = true := by
  split
  · rfl
  · exact hr

/-- C4 (amended): reply/usage extraction never raises on any
*well-shaped* upstream body — a JSON object whose `choices` field, if
present, is a nonempty array whose first element is an object with an
absent-or-object `message`, and whose `usage` field, if present, is an
object.  Absent fields map to the fallbacks (empty-string reply, zero
usage), never to a failure.  (On other JSON bodies the extraction
raises; see the counterexample.) -/
theorem c4_extraction_total (j : Json) (h : wellShaped j = true) :
    (extractReply j).isOk = true
    ∧ (extractUsage j).isOk = true
    ∧ (∀ fields, j = .obj fields → jsonFind fields ("choices") = none →
        extractReply j = .ok (.str ("")))
    ∧ (∀ fields, j = .obj fields → jsonFind fields ("usage") = none →
        extractUsage j = .ok (.num 0)) := by
  cases j with
  | obj fields =>
    unfold wellShaped at h
    rw [Bool.and_eq_true] at h
    obtain ⟨hc, hu⟩ := h
    refine ⟨?_, ?_, ?_, ?_⟩
    · unfold extractReply
      cases hcc : jsonFind fields ("choices") with
      | none => simp [pyGet, hcc, pyIndex0, jsonFind, Json.truthy, PyRes.isOk]
      | some v =>
        rw [hcc] at hc
        cases v with
        | arr elems =>
          cases elems with
          | nil => simp [goodChoices] at hc
          | cons c0 rest =>
            cases c0 with
            | obj cf =>
              simp only [goodChoices] at hc
              cases hmm : jsonFind cf ("message") with
              | none =>
                simp only [pyGet, hcc, pyIndex0, hmm, Option.getD_none,
                  Option.getD_some, jsonFind]
                exact isOk_ite _ _ _ (isOk_ite _ _ _ rfl)
              | some m =>
                rw [hmm] at hc
                cases m with
                | obj mf =>
                  simp only [pyGet, hcc, pyIndex0, hmm, Option.getD_none,
                    Option.getD_some, jsonFind]
                  exact isOk_ite _ _ _ (isOk_ite _ _ _ rfl)
                | null => simp at hc
                | bool b => simp at hc
                | num n => simp at hc
                | str s => simp at hc
                | arr l => simp at hc
            | null => simp [goodChoices] at hc
            | bool b => simp [goodChoices] at hc
            | num n => simp [goodChoices] at hc
            | str s => simp [goodChoices] at hc
            | arr l => simp [goodChoices] at hc
        | null => simp [goodChoices] at hc
        | bool b => simp [goodChoices] at hc
        | num n => simp [goodChoices] at hc
        | str s => simp [goodChoices] at hc
        | obj f2 => simp [goodChoices] at hc
    · unfold extractUsage
      cases huu : jsonFind fields ("usage") with
      | none => simp [pyGet, huu, jsonFind, Json.truthy, PyRes.isOk]
      | some v =>
        rw [huu] at hu
        cases v with
        | obj uf =>
          simp only [pyGet, huu, Option.getD_some]
          exact isOk_ite _ _ _ (isOk_ite _ _ _ rfl)
        | null => simp [goodUsage] at hu
        | bool b => simp [goodUsage] at hu
        | num n => simp [goodUsage] at hu
        | str s => simp [goodUsage] at hu
        | arr l => simp [goodUsage] at hu
    · intro fields' heq hnone
      injection heq with heq'
      subst heq'
      unfold extractReply
      simp [pyGet, hnone, pyIndex0, jsonFind, Json.truthy]
    · intro fields' heq hnone
      injection heq with heq'
      subst heq'
      unfold extractUsage
      simp [pyGet, hnone, jsonFind, Json.truthy]
  | null => simp [wellShaped] at h
  | bool b => simp [wellShaped] at h
  | num n => simp [wellShaped] at h
  | str s => simp [wellShaped] at h
  | arr l => simp [wellShaped] at h

/-- Witness for C4 (amended): a body with no `choices` and no `usage`
is well-shaped and extraction yields the fallbacks. -/
theorem c4_witness :
    wellShaped (.obj [(("id"), .str ("x"))]) = true
    ∧ extractReply (.obj [(("id"), .str ("x"))]) = .ok (.str (""))
    ∧ extractUsage (.obj [(("id"), .str ("x"))]) = .ok (.num 0) := by
  have h := c4_extraction_total (.obj [(("id"), .str ("x"))]) (by decide)
  exact ⟨by decide, h.2.2.1 _ rfl rfl, h.2.2.2 _ rfl rfl⟩

/-- Counterexample to C4 as stated: extraction is *not* total on every
JSON body — `{"choices": []}` raises (`IndexError`), as does a non-object
body such as `"hello"` (`AttributeError`); both become HTTP 500. -/
theorem c4_counterexample :
    extractReply (.obj [(("choices"), .arr [])]) = .exn
    ∧ extractReply (.str ("hello")) = .exn
    ∧ extractUsage (.str ("hello")) = .exn :=
  ⟨rfl, rfl, rfl⟩

theorem get_history_state (cfg : Config) (a q : Option String) (st : St) :
    (get_history cfg a q st).2 = st := by
  unfold get_history
  split <;> rfl

theorem get_usage_state (cfg : Config) (a q : Option String) (st : St) :
    (get_usage cfg a q st).2 = st := by
  unfold get_usage
  split <;> rfl

theorem local_api_total_or (cfg : Config) (req : ApiRequest) (up : Upstream)
    (st : St) :
    (local_api cfg req up st).st.total_tokens = st.total_tokens ∨
      (local_api cfg req up st).st.total_tokens =
        st.total_tokens + usageDelta up := by
  unfold local_api
  by_cases h1 : cfg.USER_API = ("")
  · simp [h1]
  · by_cases h2 : cfg.PROVIDER_API_KEY = ("") ∨ cfg.PROVIDER_BASE_URL = ("")
    · simp [h1, h2]
    · cases hb : req.body with
      | none => simp [h1, h2, hb]
      | some bj =>
        cases bj with
        | obj fields =>
          by_cases ha : bearer_from_header req.authorization = some cfg.USER_API
          · cases up with
            | ok body =>
              cases body with
              | none => simp [h1, h2, ha]
              | some result =>
                cases hr : extractReply result with
                | exn => simp [h1, h2, ha, hr]
                | ok reply =>
                  cases hu : extractUsage result with
                  | exn => simp [h1, h2, ha, hr, hu]
                  | ok used =>
                    cases hp : pyInt (pyOr used (.num 0)) with
                    | exn => simp [h1, h2, ha, hr, hu, hp]
                    | ok n =>
                      right
                      simp [h1, h2, ha, hr, hu, hp, usageDelta]
            | readTimeout => simp [h1, h2, ha]
            | connectTimeout => simp [h1, h2, ha]
            | transportError => simp [h1, h2, ha]
            | httpStatusError => simp [h1, h2, ha]
          · simp [h1, h2, ha]
        | null => simp [h1, h2]
        | bool b => simp [h1, h2]
        | num n => simp [h1, h2]
        | str s => simp [h1, h2]
        | arr l => simp [h1, h2]

theorem applyOp_total_mono (cfg : Config) (st : St) (op : Op)
    (h : opUsageNonNeg op = true) :
    st.total_tokens ≤ (applyOp cfg st op).total_tokens := by
  cases op with
  | post req up =>
    have hd : 0 ≤ usageDelta up := by simpa [opUsageNonNeg] using h
    rcases local_api_total_or cfg req up st with he | he
    · simp [applyOp, he]
    · simp only [applyOp, he]
      exact le_add_of_nonneg_right hd
  | history a q => simp [applyOp, get_history_state]
  | usage a q => simp [applyOp, get_usage_state]

/-- C7 (amended): provided every upstream outcome reports a
non-negative usage amount (`usageDelta up ≥ 0` — the code adds the
reported amount as-is, without clamping), `total_tokens` is
monotonically non-decreasing across every sequence of gateway
operations, and it stays non-negative if it starts non-negative.  (A
negative reported usage would decrease it; see the counterexample.) -/
theorem c7_total_tokens_monotone (cfg : Config) (st : St) (ops : List Op)
    (h : ∀ op ∈ ops, opUsageNonNeg op = true) :
    st.total_tokens ≤ (runOps cfg st ops).total_tokens
    ∧ (0 ≤ st.total_tokens → 0 ≤ (runOps cfg st ops).total_tokens) := by
  have key : ∀ (l : List Op) (s : St), (∀ op ∈ l, opUsageNonNeg op = true) →
      s.total_tokens ≤ (runOps cfg s l).total_tokens := by
    intro l
    induction l with
    | nil =>
      intro s _
      simp [runOps]
    | cons op rest ih =>
      intro s hh
      have hstep := applyOp_total_mono cfg s op (hh op (by simp))
      have htail := ih (applyOp cfg s op) (fun o ho => hh o (by simp [ho]))
      calc s.total_tokens ≤ (applyOp cfg s op).total_tokens := hstep
        _ ≤ _ := by simpa [runOps] using htail
  exact ⟨key ops st h, fun h0 => le_trans h0 (key ops st h)⟩

/-- Witness for C7 (amended): a successful post (+5), a read, and a
failed post leave the counter at 5 ≥ 0. -/
theorem c7_witness :
    (⟨[], 0, [], 0⟩ : St).total_tokens ≤
      (runOps ⟨("s"), ("pk"), ("u")⟩ ⟨[], 0, [], 0⟩
        [.post ⟨some ("Bearer s"), none, some (.obj [(("message"), .str ("hi"))])⟩
          (.ok (some (.obj [(("usage"), .obj [(("total_tokens"), .num 5)])]))),
         .history none (some ("s")),
         .post ⟨some ("Bearer s"), none, some (.obj [(("message"), .str ("hi"))])⟩
          .readTimeout]).total_tokens :=
  (c7_total_tokens_monotone ⟨("s"), ("pk"), ("u")⟩ ⟨[], 0, [], 0⟩ _
    (by decide)).1

/-- Counterexample to C7 as stated: an upstream body reporting
`usage.total_tokens = -5` makes a successful request *decrease*
`total_tokens` from 10 to 5. -/
theorem c7_counterexample :
    (local_api ⟨("s"), ("pk"), ("u")⟩
        ⟨some ("Bearer s"), none, some (.obj [(("message"), .str ("hi"))])⟩
        (.ok (some (.obj [(("usage"),
          .obj [(("total_tokens"), .num (-5))])])))
        ⟨[], 10, [], 10⟩).st.total_tokens = 5
    ∧ (local_api ⟨("s"), ("pk"), ("u")⟩
        ⟨some ("Bearer s"), none, some (.obj [(("message"), .str ("hi"))])⟩
        (.ok (some (.obj [(("usage"),
          .obj [(("total_tokens"), .num (-5))])])))
        ⟨[], 10, [], 10⟩).st.total_tokens < (⟨[], 10, [], 10⟩ : St).total_tokens :=
  ⟨rfl, by decide⟩

theorem suffix_successTrace (t : List Stmt) (m r : Json) (n : Int)
    (h : t <:+ successTrace m r n) :
    t = successTrace m r n ∨
    t = [.ensure, .yieldPoint, .appendUser m, .appendBot r, .addUsage n,
      .saveHistory, .saveUsage] ∨
    t = [.yieldPoint, .appendUser m, .appendBot r, .addUsage n,
      .saveHistory, .saveUsage] ∨
    t = [.appendUser m, .appendBot r, .addUsage n, .saveHistory,
      .saveUsage] ∨
    t = [.appendBot r, .addUsage n, .saveHistory, .saveUsage] ∨
    t = [.addUsage n, .saveHistory, .saveUsage] ∨
    t = [.saveHistory, .saveUsage] ∨
    t = [.saveUsage] ∨
    t = [] := by
  rw [← List.mem_tails] at h
  simp only [successTrace, List.tails, List.mem_cons, List.mem_singleton,
    List.not_mem_nil, or_false] at h
  simpa [successTrace] using h

theorem suffix_failureTrace (t : List Stmt) (h : t <:+ failureTrace) :
    t = failureTrace ∨ t = [.ensure, .yieldPoint] ∨ t = [.yieldPoint] ∨
      t = [] := by
  rw [← List.mem_tails] at h
  simp only [failureTrace, List.tails, List.mem_cons, List.mem_singleton,
    List.not_mem_nil, or_false] at h
  simpa [failureTrace] using h

theorem taskOk_tail (s : Stmt) (rest : List Stmt) (h : taskOk (s :: rest)) :
    taskOk rest := by
  rcases h with ⟨m, r, n, hs⟩ | hs
  · exact Or.inl ⟨m, r, n, (List.suffix_cons s rest).trans hs⟩
  · exact Or.inr ((List.suffix_cons s rest).trans hs)

theorem taskOk_after_appendUser (m : Json) (rest : List Stmt)
    (h : taskOk (.appendUser m :: rest)) :
    ∃ r n, rest = [.appendBot r, .addUsage n, .saveHistory, .saveUsage] := by
  rcases h with ⟨m', r, n, hs⟩ | hs
  · rcases suffix_successTrace _ m' r n hs with
      h1 | h1 | h1 | h1 | h1 | h1 | h1 | h1 | h1
    · simp [successTrace] at h1
    · simp at h1
    · simp at h1
    · simp at h1
      exact ⟨r, n, h1.2⟩
    · simp at h1
    · simp at h1
    · simp at h1
    · simp at h1
    · simp at h1
  · rcases suffix_failureTrace _ hs with h1 | h1 | h1 | h1 <;>
      simp [failureTrace] at h1

theorem taskOk_rest_no_bot (s : Stmt) (rest : List Stmt)
    (h : taskOk (s :: rest)) (hs : ∀ m, s ≠ .appendUser m) :
    ∀ r0 rest', rest ≠ .appendBot r0 :: rest' := by
  intro r0 rest' heq
  rcases h with ⟨m', r, n, hsuf⟩ | hsuf
  · rcases suffix_successTrace _ m' r n hsuf with
      h1 | h1 | h1 | h1 | h1 | h1 | h1 | h1 | h1 <;>
      simp_all [successTrace]
  · rcases suffix_failureTrace _ hsuf with h1 | h1 | h1 | h1 <;>
      simp_all [failureTrace]

theorem inv_step (uid : String) {c c' : CState} (hinv : Inv uid c)
    (hstep : CStep uid c c') : Inv uid c' := by
  obtain ⟨hA, hB, hC, hD1, hD2⟩ := hinv
  cases hstep with
  | exec i s rest htask hsched =>
    have hlen : i < c.tasks.length := by
      by_contra hge
      rw [List.getElem?_eq_none_iff.mpr (Nat.le_of_not_lt hge)] at htask
      simp at htask
    have htOk : taskOk (s :: rest) := hA _ (List.getElem?_mem htask)
    have hset : (c.tasks.set i rest)[i]? = some rest :=
      List.getElem?_set_self hlen
    have hA' : ∀ t ∈ c.tasks.set i rest, taskOk t := by
      intro t ht
      rcases List.mem_or_eq_of_mem_set ht with hmem | hrfl
      · exact hA t hmem
      · rw [hrfl]
        exact taskOk_tail s rest htOk
    have hB' : ∀ j t, (c.tasks.set i rest)[j]? = some t →
        (some i : Option Nat) = some j ∨ atYieldOrDone t = true := by
      intro j t hj
      by_cases hji : j = i
      · exact Or.inl (by rw [hji])
      · right
        rw [List.getElem?_set_ne (fun he => hji he.symm)] at hj
        rcases hB j t hj with hcj | hy
        · exact hsched j t hcj hji hj
        · exact hy
    have hcur_of : atYieldOrDone (s :: rest) = false → c.cur = some i := by
      intro hny
      rcases hB i _ htask with hh | hh
      · exact hh
      · rw [hny] at hh
        exact absurd hh (by simp)
    have hnotMid : (∀ r0, s ≠ .appendBot r0) → ¬ MidApp c := by
      intro hs hm
      obtain ⟨j, r0, rest0, hcur0, hj⟩ := hm
      by_cases hji : j = i
      · subst hji
        rw [htask] at hj
        have h1 := Option.some.inj hj
        injection h1 with h2 h3
        exact hs r0 h2
      · have := hsched j _ hcur0 hji hj
        simp [atYieldOrDone] at this
    cases s with
    | yieldPoint =>
      have hnmC : ¬ MidApp c := hnotMid (by simp)
      refine ⟨hA', hB', hC, fun hm => False.elim ?_, fun _ => hD2 hnmC⟩
      obtain ⟨j, r0, rest0, hcur0, hj⟩ := hm
      have hji : j = i := (Option.some.inj hcur0).symm
      subst hji
      have hj' : (c.tasks.set j rest)[j]? = some (Stmt.appendBot r0 :: rest0) :=
        hj
      rw [hset] at hj'
      exact taskOk_rest_no_bot _ rest htOk (by simp) r0 rest0
        (Option.some.inj hj')
    | ensure =>
      have hnmC : ¬ MidApp c := hnotMid (by simp)
      refine ⟨hA', hB', hC, fun hm => False.elim ?_, fun _ => ?_⟩
      · obtain ⟨j, r0, rest0, hcur0, hj⟩ := hm
        have hji : j = i := (Option.some.inj hcur0).symm
        subst hji
        have hj' : (c.tasks.set j rest)[j]? =
            some (Stmt.appendBot r0 :: rest0) := hj
        rw [hset] at hj'
        exact taskOk_rest_no_bot _ rest htOk (by simp) r0 rest0
          (Option.some.inj hj')
      · show pairsOnly (histGetD (ensureKey c.mem uid) uid) = true
        rw [histGetD_ensure]
        exact hD2 hnmC
    | appendUser m =>
      have hnmC : ¬ MidApp c := hnotMid (by simp)
      have hpm := hD2 hnmC
      obtain ⟨r, n, hrest⟩ := taskOk_after_appendUser m rest htOk
      refine ⟨hA', hB', hC, fun _ => ?_, fun hnm => False.elim ?_⟩
      · refine ⟨histGetD c.mem uid, m, hpm, ?_⟩
        show histGetD (histAppend c.mem uid ⟨("user"), m⟩) uid = _
        exact histGetD_append_self c.mem uid _
      · apply hnm
        refine ⟨i, r, [.addUsage n, .saveHistory, .saveUsage], rfl, ?_⟩
        show (c.tasks.set i rest)[i]? = _
        rw [hset, hrest]
    | appendBot r =>
      have hcur : c.cur = some i := hcur_of (by rfl)
      have hmid : MidApp c := ⟨i, r, rest, hcur, htask⟩
      obtain ⟨l, m0, hpl, hmem⟩ := hD1 hmid
      refine ⟨hA', hB', hC, fun hm => False.elim ?_, fun _ => ?_⟩
      · obtain ⟨j, r0, rest0, hcur0, hj⟩ := hm
        have hji : j = i := (Option.some.inj hcur0).symm
        subst hji
        have hj' : (c.tasks.set j rest)[j]? =
            some (Stmt.appendBot r0 :: rest0) := hj
        rw [hset] at hj'
        exact taskOk_rest_no_bot _ rest htOk (by simp) r0 rest0
          (Option.some.inj hj')
      · show pairsOnly (histGetD (histAppend c.mem uid ⟨("bot"), r⟩) uid) = true
        rw [histGetD_append_self, hmem, List.append_assoc]
        exact pairsOnly_concat_pair m0 r l hpl
    | addUsage n =>
      have hnmC : ¬ MidApp c := hnotMid (by simp)
      refine ⟨hA', hB', hC, fun hm => False.elim ?_, fun _ => hD2 hnmC⟩
      obtain ⟨j, r0, rest0, hcur0, hj⟩ := hm
      have hji : j = i := (Option.some.inj hcur0).symm
      subst hji
      have hj' : (c.tasks.set j rest)[j]? = some (Stmt.appendBot r0 :: rest0) :=
        hj
      rw [hset] at hj'
      exact taskOk_rest_no_bot _ rest htOk (by simp) r0 rest0
        (Option.some.inj hj')
    | saveHistory =>
      have hnmC : ¬ MidApp c := hnotMid (by simp)
      have hpm := hD2 hnmC
      refine ⟨hA', hB', hpm, fun hm => False.elim ?_, fun _ => hpm⟩
      obtain ⟨j, r0, rest0, hcur0, hj⟩ := hm
      have hji : j = i := (Option.some.inj hcur0).symm
      subst hji
      have hj' : (c.tasks.set j rest)[j]? = some (Stmt.appendBot r0 :: rest0) :=
        hj
      rw [hset] at hj'
      exact taskOk_rest_no_bot _ rest htOk (by simp) r0 rest0
        (Option.some.inj hj')
    | saveUsage =>
      have hnmC : ¬ MidApp c := hnotMid (by simp)
      refine ⟨hA', hB', hC, fun hm => False.elim ?_, fun _ => hD2 hnmC⟩
      obtain ⟨j, r0, rest0, hcur0, hj⟩ := hm
      have hji : j = i := (Option.some.inj hcur0).symm
      subst hji
      have hj' : (c.tasks.set j rest)[j]? = some (Stmt.appendBot r0 :: rest0) :=
        hj
      rw [hset] at hj'
      exact taskOk_rest_no_bot _ rest htOk (by simp) r0 rest0
        (Option.some.inj hj')

theorem inv_reach (uid : String) {c0 c : CState} (h0 : Inv uid c0)
    (h : Relation.ReflTransGen (CStep uid) c0 c) : Inv uid c := by
  induction h with
  | refl => exact h0
  | tail hab hbc ih => exact inv_step uid ih hbc

/-- C8: under the asyncio scheduling model (task switches only at the
handler's `await` points), any interleaving of `/localAPI` handler
traces for the same identity keeps the persisted conversation log a
sequence of complete, adjacent (user, bot) pairs at every reachable
point: the append-append-flush region contains no suspension point, so
it executes as a single critical section. -/
theorem c8_no_interleaving (uid : String) (c0 c : CState)
    (htasks : ∀ t ∈ c0.tasks, (∃ m r n, t = successTrace m r n) ∨
      t = failureTrace)
    (hcur : c0.cur = none)
    (hp : pairsOnly (histGetD c0.persisted uid) = true)
    (hm : pairsOnly (histGetD c0.mem uid) = true)
    (hreach : Relation.ReflTransGen (CStep uid) c0 c) :
    pairsOnly (histGetD c.persisted uid) = true := by
  have h0 : Inv uid c0 := by
    refine ⟨?_, ?_, hp, ?_, fun _ => hm⟩
    · intro t ht
      rcases htasks t ht with ⟨m, r, n, hrfl⟩ | hrfl
      · exact Or.inl ⟨m, r, n, by rw [hrfl]⟩
      · exact Or.inr (by rw [hrfl])
    · intro j t hj
      right
      rcases htasks t (List.getElem?_mem hj) with ⟨m, r, n, hrfl⟩ | hrfl
      · rw [hrfl]
        rfl
      · rw [hrfl]
        rfl
    · intro hmid
      obtain ⟨j, r0, rest0, hcur0, _⟩ := hmid
      rw [hcur] at hcur0
      simp at hcur0
  exact (inv_reach uid h0 hreach).2.2.1

/-- Witness for C8: a two-task system (one successful request, one
failed request) in its initial state satisfies the hypotheses, and its
persisted log shows only complete pairs. -/
theorem c8_witness :
    pairsOnly (histGetD
      ((⟨[], [], 0, 0,
        [successTrace (.str ("hi")) (.str ("ok")) 5, failureTrace],
        none⟩ : CState)).persisted ("s")) = true := by
  apply c8_no_interleaving ("s")
    ⟨[], [], 0, 0,
      [successTrace (.str ("hi")) (.str ("ok")) 5, failureTrace], none⟩
    _ ?_ rfl rfl rfl Relation.ReflTransGen.refl
  intro t ht
  simp only [List.mem_cons, List.mem_singleton, List.not_mem_nil,
    or_false] at ht
  rcases ht with hrfl | hrfl
  · exact Or.inl ⟨.str ("hi"), .str ("ok"), 5, hrfl⟩
  · exact Or.inr hrfl

end SellApi
